import Mathlib

/-!
# xf86-input-libinput: event translation and device lifecycle

A shallow embedding of `src/libinput.c`.  Calls into the X server and into
libinput have no body in this repository; every such call is recorded as a
constructor of a trace type (`XPost` for the event-posting API, `InitCall` for
the device-class registration API), in the order in which the C code performs
it.  C `int` arithmetic is carried out on `Int` and reduced into the 32-bit
two's-complement range by `int_wrap`.
-/

namespace XF86Libinput

/-! ## Constants of `libinput.c` -/

/-- The macro `TOUCHPAD_MAX_BUTTONS` (three buttons, 4 scroll buttons). -/
def TOUCHPAD_MAX_BUTTONS : Nat := 7

/-- The macro `TOUCHPAD_NUM_AXES` (x, y, hscroll, vscroll). -/
def TOUCHPAD_NUM_AXES : Nat := 4

/-- The macro `TOUCH_MAX_SLOTS`. -/
def TOUCH_MAX_SLOTS : Nat := 15

/-- The macro `XORG_KEYCODE_OFFSET`. -/
def XORG_KEYCODE_OFFSET : Int := 8

/-- The macro `TOUCH_AXIS_MAX`. -/
def TOUCH_AXIS_MAX : Int := 0xffff

/-! ## Constants of the system headers the file includes -/

/-- Button code `BTN_LEFT` of `linux/input.h`. -/
def BTN_LEFT : Nat := 0x110

/-- Button code `BTN_RIGHT` of `linux/input.h`. -/
def BTN_RIGHT : Nat := 0x111

/-- Button code `BTN_MIDDLE` of `linux/input.h`. -/
def BTN_MIDDLE : Nat := 0x112

/-- Error number `EAGAIN` of `errno.h` on Linux. -/
def EAGAIN : Int := 11

/-- Status `Success` of `X.h`. -/
def Success : Int := 0

/-- Status `BadValue` of `X.h`. -/
def BadValue : Int := 2

/-- Event type `XI_TouchBegin` of `XI2.h`. -/
def XI_TouchBegin : Nat := 18

/-- Event type `XI_TouchUpdate` of `XI2.h`. -/
def XI_TouchUpdate : Nat := 19

/-- Event type `XI_TouchEnd` of `XI2.h`. -/
def XI_TouchEnd : Nat := 20

/-- The valuator modes `Relative` and `Absolute` of `XI.h`. -/
inductive ValuatorMode
  | Relative
  | Absolute
  deriving DecidableEq

/-- The scroll types accepted by the server's `SetScrollValuator`. -/
inductive ScrollType
  | SCROLL_TYPE_VERTICAL
  | SCROLL_TYPE_HORIZONTAL
  deriving DecidableEq

/-- The `enum libinput_led` bit for num lock. -/
def LIBINPUT_LED_NUM_LOCK : Nat := 1

/-- The `enum libinput_led` bit for caps lock. -/
def LIBINPUT_LED_CAPS_LOCK : Nat := 2

/-- The `enum libinput_led` bit for scroll lock. -/
def LIBINPUT_LED_SCROLL_LOCK : Nat := 4

/-- The `enum libinput_pointer_button_state`. -/
inductive libinput_pointer_button_state
  | LIBINPUT_POINTER_BUTTON_STATE_RELEASED
  | LIBINPUT_POINTER_BUTTON_STATE_PRESSED
  deriving DecidableEq

/-- The `enum libinput_keyboard_key_state`. -/
inductive libinput_keyboard_key_state
  | LIBINPUT_KEYBOARD_KEY_STATE_RELEASED
  | LIBINPUT_KEYBOARD_KEY_STATE_PRESSED
  deriving DecidableEq

/-- The `enum libinput_pointer_axis`. -/
inductive libinput_pointer_axis
  | LIBINPUT_POINTER_AXIS_VERTICAL_SCROLL
  | LIBINPUT_POINTER_AXIS_HORIZONTAL_SCROLL
  deriving DecidableEq

/-- The `enum libinput_touch_type`. -/
inductive libinput_touch_type
  | LIBINPUT_TOUCH_TYPE_DOWN
  | LIBINPUT_TOUCH_TYPE_UP
  | LIBINPUT_TOUCH_TYPE_MOTION
  | LIBINPUT_TOUCH_TYPE_FRAME
  | LIBINPUT_TOUCH_TYPE_CANCEL
  deriving DecidableEq

open ValuatorMode ScrollType
open libinput_pointer_button_state libinput_keyboard_key_state
open libinput_pointer_axis libinput_touch_type

/-! ## Machine integers -/

/-- Reduction of an integer into the range of a 32-bit C `int`
(two's complement): the value an `int` holds after an assignment or an
arithmetic step whose mathematical result is `x`. -/
def int_wrap (x : Int) : Int := (x + 2 ^ 31) % 2 ^ 32 - 2 ^ 31

/-- Conversion of a C `int` to a 32-bit `unsigned int`, as done when an `int`
is passed for an `unsigned int` parameter: reduction modulo 2^32. -/
def int_to_unsigned (x : Int) : Nat := (x % 2 ^ 32).toNat

/-- Modelled from the spec: `li_fixed_to_int` is an inline helper of
`libinput.h`, absent from the sources; a `li_fixed_t` is a 24.8 fixed-point
number and the conversion to `int` truncates, which is C division by 256
(rounding toward zero). -/
def li_fixed_to_int (f : Int) : Int := Int.tdiv f 256

/-! ## The event-posting API of the server, as a trace -/

/-- One call of the server's event-posting API.  The first field of every
constructor is the device (`pInfo->dev`) the event is posted on. -/
inductive XPost
  /-- The call `xf86PostMotionEvent(dev, is_absolute, first_valuator,
  num_valuators, ...)` with its variadic valuator values. -/
  | xf86PostMotionEvent (dev : Nat) (is_absolute : ValuatorMode)
      (first_valuator : Nat) (num_valuators : Nat) (valuators : List Int)
  /-- The call `xf86PostButtonEvent(dev, is_absolute, button, is_down,
  first_valuator, num_valuators)`. -/
  | xf86PostButtonEvent (dev : Nat) (is_absolute : ValuatorMode)
      (button : Int) (is_down : Int) (first_valuator : Nat) (num_valuators : Nat)
  /-- The call `xf86PostKeyboardEvent(dev, key_code, is_down)`; the server
  declares `key_code` as `unsigned int`. -/
  | xf86PostKeyboardEvent (dev : Nat) (key_code : Nat) (is_down : Int)
  /-- The call `xf86PostTouchEvent(dev, touchid, type, flags, mask)`.  The
  mask holds two doubles, at valuators 0 and 1: `li_fixed_to_double` of the
  fixed-point numbers `x` and `y`, which are what is recorded here. -/
  | xf86PostTouchEvent (dev : Nat) (touchid : Int) (type : Nat) (flags : Nat)
      (x : Int) (y : Int)
  deriving DecidableEq

open XPost

/-! ## Event handlers -/

/-- The data of a `struct libinput_event_pointer` read by the handlers. -/
structure libinput_event_pointer where
  dx : Int
  dy : Int
  button : Nat
  button_state : libinput_pointer_button_state
  axis : libinput_pointer_axis
  axis_value : Int
  deriving DecidableEq

/-- The data of a `struct libinput_event_keyboard` read by the handlers. -/
structure libinput_event_keyboard where
  key : Nat
  key_state : libinput_keyboard_key_state
  deriving DecidableEq

/-- The data of a `struct libinput_event_touch` read by the handlers. -/
structure libinput_event_touch where
  slot : Nat
  touch_type : libinput_touch_type
  x : Int
  y : Int
  deriving DecidableEq

/-- The function `xf86libinput_handle_motion`. -/
def xf86libinput_handle_motion (dev : Nat) (event : libinput_event_pointer) : List XPost :=
  let x := event.dx
  let y := event.dy
  let x := li_fixed_to_int x
  let y := li_fixed_to_int y
  [xf86PostMotionEvent dev Relative 0 2 [x, y]]

/-- The function `xf86libinput_handle_button`. -/
def xf86libinput_handle_button (dev : Nat) (event : libinput_event_pointer) : List XPost :=
  let button : Option Int :=
    if event.button = BTN_LEFT then some 1
    else if event.button = BTN_MIDDLE then some 2
    else if event.button = BTN_RIGHT then some 3
    else none
  match button with
  | none => []
  | some button =>
    let is_press : Int :=
      if event.button_state = LIBINPUT_POINTER_BUTTON_STATE_PRESSED then 1 else 0
    [xf86PostButtonEvent dev Relative button is_press 0 0]

/-- The function `xf86libinput_handle_key`: the `uint32_t` key code is stored
in an `int`, the offset is added in `int`, and the sum is passed for the
`unsigned int` key code of `xf86PostKeyboardEvent`. -/
def xf86libinput_handle_key (dev : Nat) (event : libinput_event_keyboard) : List XPost :=
  let key := int_wrap (event.key : Int)
  let key := int_wrap (key + XORG_KEYCODE_OFFSET)
  let is_press : Int :=
    if event.key_state = LIBINPUT_KEYBOARD_KEY_STATE_PRESSED then 1 else 0
  [xf86PostKeyboardEvent dev (int_to_unsigned key) is_press]

/-- The function `xf86libinput_handle_axis`. -/
def xf86libinput_handle_axis (dev : Nat) (event : libinput_event_pointer) : List XPost :=
  let axis : Nat :=
    if event.axis = LIBINPUT_POINTER_AXIS_VERTICAL_SCROLL then 3 else 4
  let value := event.axis_value
  [xf86PostMotionEvent dev Relative axis 1 [li_fixed_to_int value]]

/-! ## Touch identifiers -/

/-- The two function-local statics of `xf86libinput_handle_touch`:
`next_touchid` and the array `touchids[TOUCH_MAX_SLOTS]`. -/
structure TouchStatics where
  next_touchid : Int
  touchids : List Int
  deriving DecidableEq

/-- The statics as the C runtime initialises them: zero everywhere. -/
def TouchStatics.initial : TouchStatics :=
  { next_touchid := 0, touchids := List.replicate TOUCH_MAX_SLOTS 0 }

/-- The function `xf86libinput_handle_touch`.  An access to `touchids`
outside the array has no defined behaviour in C and yields `none`. -/
def xf86libinput_handle_touch (st : TouchStatics) (dev : Nat)
    (event : libinput_event_touch) : Option (TouchStatics × List XPost) :=
  let slot := event.slot
  let switched : Option (Option (Nat × TouchStatics)) :=
    match event.touch_type with
    | LIBINPUT_TOUCH_TYPE_DOWN =>
      if slot < st.touchids.length then
        some (some (XI_TouchBegin,
          { next_touchid := int_wrap (st.next_touchid + 1),
            touchids := st.touchids.set slot st.next_touchid }))
      else none
    | LIBINPUT_TOUCH_TYPE_UP => some (some (XI_TouchEnd, st))
    | LIBINPUT_TOUCH_TYPE_MOTION => some (some (XI_TouchUpdate, st))
    | _ => some none
  match switched with
  | none => none
  | some none => some (st, [])
  | some (some (type, st1)) =>
    match st1.touchids[slot]? with
    | none => none
    | some touchid =>
      some (st1, [xf86PostTouchEvent dev touchid type 0 event.x event.y])

/-- A sequence of touch events, each with the device it belongs to, handed
to `xf86libinput_handle_touch` one after the other; the result lists, event
by event, what was posted. -/
def handle_touch_sequence : TouchStatics → List (Nat × libinput_event_touch) →
    Option (TouchStatics × List (List XPost))
  | st, [] => some (st, [])
  | st, (dev, event) :: rest =>
    match xf86libinput_handle_touch st dev event with
    | none => none
    | some (st1, out) =>
      match handle_touch_sequence st1 rest with
      | none => none
      | some (st2, outs) => some (st2, out :: outs)

/-! ## Event dispatch and the read callback -/

/-- The payload of a `struct libinput_event`, by `libinput_event_get_type`. -/
inductive libinput_event_payload
  | LIBINPUT_EVENT_NONE
  | LIBINPUT_EVENT_DEVICE_ADDED
  | LIBINPUT_EVENT_DEVICE_REMOVED
  | LIBINPUT_EVENT_POINTER_MOTION_ABSOLUTE
  | LIBINPUT_EVENT_POINTER_MOTION (e : libinput_event_pointer)
  | LIBINPUT_EVENT_POINTER_BUTTON (e : libinput_event_pointer)
  | LIBINPUT_EVENT_KEYBOARD_KEY (e : libinput_event_keyboard)
  | LIBINPUT_EVENT_POINTER_AXIS (e : libinput_event_pointer)
  | LIBINPUT_EVENT_TOUCH_FRAME
  | LIBINPUT_EVENT_TOUCH_TOUCH (e : libinput_event_touch)
  deriving DecidableEq

/-- A `struct libinput_event`: the device it came from (whose user data is
the `pInfo` of that device) and its payload. -/
structure libinput_event where
  device : Nat
  payload : libinput_event_payload
  deriving DecidableEq

open libinput_event_payload

/-- The function `xf86libinput_handle_event`. -/
def xf86libinput_handle_event (st : TouchStatics) (event : libinput_event) :
    Option (TouchStatics × List XPost) :=
  let pInfo := event.device
  match event.payload with
  | LIBINPUT_EVENT_NONE => some (st, [])
  | LIBINPUT_EVENT_DEVICE_ADDED => some (st, [])
  | LIBINPUT_EVENT_DEVICE_REMOVED => some (st, [])
  | LIBINPUT_EVENT_POINTER_MOTION_ABSOLUTE => some (st, [])
  | LIBINPUT_EVENT_POINTER_MOTION e => some (st, xf86libinput_handle_motion pInfo e)
  | LIBINPUT_EVENT_POINTER_BUTTON e => some (st, xf86libinput_handle_button pInfo e)
  | LIBINPUT_EVENT_KEYBOARD_KEY e => some (st, xf86libinput_handle_key pInfo e)
  | LIBINPUT_EVENT_POINTER_AXIS e => some (st, xf86libinput_handle_axis pInfo e)
  | LIBINPUT_EVENT_TOUCH_FRAME => some (st, [])
  | LIBINPUT_EVENT_TOUCH_TOUCH e => xf86libinput_handle_touch st pInfo e

/-- What one run of `xf86libinput_read_input` leaves behind. -/
structure ReadResult where
  /-- The touch statics after the run. -/
  statics : TouchStatics
  /-- The events still queued in the libinput context. -/
  pending : List libinput_event
  /-- The events posted to the server, in order. -/
  posted : List XPost
  /-- The arguments of the calls of `ErrorFSigSafe`, in order. -/
  errors : List Int
  deriving DecidableEq

/-- The loop `while ((event = libinput_get_event(libinput)))` of
`xf86libinput_read_input`: every queued event is fetched, translated and
destroyed. -/
def drain_events : TouchStatics → List libinput_event → Option (TouchStatics × List XPost)
  | st, [] => some (st, [])
  | st, event :: rest =>
    match xf86libinput_handle_event st event with
    | none => none
    | some (st1, out) =>
      match drain_events st1 rest with
      | none => none
      | some (st2, outs) => some (st2, out ++ outs)

/-- The function `xf86libinput_read_input`; `rc` is the result of
`libinput_dispatch` and `pending` the event queue of the context after that
call. -/
def xf86libinput_read_input (st : TouchStatics) (rc : Int)
    (pending : List libinput_event) : Option ReadResult :=
  if rc = -EAGAIN then
    some { statics := st, pending := pending, posted := [], errors := [] }
  else if rc < 0 then
    some { statics := st, pending := pending, posted := [], errors := [int_wrap (-rc)] }
  else
    match drain_events st pending with
    | none => none
    | some (st1, out) =>
      some { statics := st1, pending := [], posted := out, errors := [] }

/-! ## Keyboard LEDs -/

/-- The flags `CAPSFLAG`, `NUMFLAG` and `SCROLLFLAG` of `xf86libinput_kbd_ctrl`. -/
def CAPSFLAG : Nat := 1

/-- See `CAPSFLAG`. -/
def NUMFLAG : Nat := 2

/-- See `CAPSFLAG`. -/
def SCROLLFLAG : Nat := 4

/-- The static table `bits` of `xf86libinput_kbd_ctrl`, as pairs
`(xbit, code)`, with its terminating entry. -/
def bits : List (Nat × Nat) :=
  [ (CAPSFLAG, LIBINPUT_LED_CAPS_LOCK),
    (NUMFLAG, LIBINPUT_LED_NUM_LOCK),
    (SCROLLFLAG, LIBINPUT_LED_SCROLL_LOCK),
    (0, 0) ]

/-- The loop `while (bits[i].xbit) { leds |= !!(ctrl->leds & bits[i].xbit); i++; }`
run over the entries from index `i` on, starting from the accumulator `leds`. -/
def kbd_ctrl_loop (ctrl_leds : Nat) : List (Nat × Nat) → Nat → Nat
  | [], leds => leds
  | (xbit, _code) :: rest, leds =>
    if xbit = 0 then leds
    else kbd_ctrl_loop ctrl_leds rest (leds ||| (if ctrl_leds &&& xbit ≠ 0 then 1 else 0))

/-- The function `xf86libinput_kbd_ctrl`: the value is the mask passed to
`libinput_device_led_update`. -/
def xf86libinput_kbd_ctrl (ctrl_leds : Nat) : Nat :=
  kbd_ctrl_loop ctrl_leds bits 0

/-! ## Device-class registration -/

/-- The atoms the file obtains with `XIGetKnownProperty`, named by the
property macro passed to it; `None` is the zero atom left by `memset`. -/
inductive Atom
  | None
  | BTN_LABEL_PROP_BTN_LEFT
  | BTN_LABEL_PROP_BTN_MIDDLE
  | BTN_LABEL_PROP_BTN_RIGHT
  | BTN_LABEL_PROP_BTN_WHEEL_UP
  | BTN_LABEL_PROP_BTN_WHEEL_DOWN
  | BTN_LABEL_PROP_BTN_HWHEEL_LEFT
  | BTN_LABEL_PROP_BTN_HWHEEL_RIGHT
  | AXIS_LABEL_PROP_REL_X
  | AXIS_LABEL_PROP_REL_Y
  | AXIS_LABEL_PROP_REL_HSCROLL
  | AXIS_LABEL_PROP_REL_VSCROLL
  | AXIS_LABEL_PROP_ABS_X
  | AXIS_LABEL_PROP_ABS_Y
  deriving DecidableEq

/-- The callbacks of this file that are handed to the server. -/
inductive Callback
  | xf86libinput_ptr_ctl
  | xf86libinput_kbd_ctrl
  deriving DecidableEq

/-- One call made while a device is initialised, to the server's
device-class registration API or to libinput. -/
inductive InitCall
  /-- The call `InitKeyboardDeviceStruct(dev, NULL, NULL, ctrl)`. -/
  | InitKeyboardDeviceStruct (ctrl : Callback)
  /-- The call `InitPointerDeviceStruct(dev, map, numButtons, btn_labels,
  controlProc, numMotionEvents, numAxes, axes_labels)`. -/
  | InitPointerDeviceStruct (map : List Nat) (numButtons : Nat) (btn_labels : List Atom)
      (controlProc : Callback) (numMotionEvents : Nat) (numAxes : Nat)
      (axes_labels : List Atom)
  /-- The call `xf86InitValuatorAxisStruct(dev, axnum, label, minval, maxval,
  resolution, min_res, max_res, mode)`. -/
  | xf86InitValuatorAxisStruct (axnum : Nat) (label : Atom) (minval maxval : Int)
      (resolution min_res max_res : Int) (mode : ValuatorMode)
  /-- The call `SetScrollValuator(dev, axnum, type, increment, flags)`. -/
  | SetScrollValuator (axnum : Nat) (type : ScrollType) (increment : Int) (flags : Nat)
  /-- The call `InitTouchClassDeviceStruct(dev, max_touches, XIDirectTouch,
  num_axes)`. -/
  | InitTouchClassDeviceStruct (max_touches : Nat) (num_axes : Nat)
  /-- The call `libinput_device_unref(device)`. -/
  | libinput_device_unref (device : Nat)
  deriving DecidableEq

open InitCall

/-- The fields of `struct xf86libinput` the modelled functions read. -/
structure xf86libinput where
  path : String
  device : Nat
  scroll_vdist : Int
  scroll_hdist : Int
  deriving DecidableEq

/-- The function `init_button_map`: the map is zeroed, then entries
`0 .. TOUCHPAD_MAX_BUTTONS` are set to their index. -/
def init_button_map (size : Nat) : List Nat :=
  (List.range (TOUCHPAD_MAX_BUTTONS + 1)).foldl (fun btnmap i => btnmap.set i i)
    (List.replicate size 0)

/-- The function `init_button_labels`. -/
def init_button_labels (size : Nat) : List Atom :=
  let labels := List.replicate size Atom.None
  let labels := labels.set 0 Atom.BTN_LABEL_PROP_BTN_LEFT
  let labels := labels.set 1 Atom.BTN_LABEL_PROP_BTN_MIDDLE
  let labels := labels.set 2 Atom.BTN_LABEL_PROP_BTN_RIGHT
  let labels := labels.set 3 Atom.BTN_LABEL_PROP_BTN_WHEEL_UP
  let labels := labels.set 4 Atom.BTN_LABEL_PROP_BTN_WHEEL_DOWN
  let labels := labels.set 5 Atom.BTN_LABEL_PROP_BTN_HWHEEL_LEFT
  labels.set 6 Atom.BTN_LABEL_PROP_BTN_HWHEEL_RIGHT

/-- The function `init_axis_labels`. -/
def init_axis_labels (size : Nat) : List Atom :=
  let labels := List.replicate size Atom.None
  let labels := labels.set 0 Atom.AXIS_LABEL_PROP_REL_X
  let labels := labels.set 1 Atom.AXIS_LABEL_PROP_REL_Y
  let labels := labels.set 2 Atom.AXIS_LABEL_PROP_REL_HSCROLL
  labels.set 3 Atom.AXIS_LABEL_PROP_REL_VSCROLL

/-- The function `xf86libinput_init_pointer`, with the calls it makes and
its return value; `history` is the result of `GetMotionHistorySize()`. -/
def xf86libinput_init_pointer (driver_data : xf86libinput) (history : Nat) :
    List InitCall × Int :=
  let btnmap := init_button_map (TOUCHPAD_MAX_BUTTONS + 1)
  let btnlabels := init_button_labels TOUCHPAD_MAX_BUTTONS
  let axislabels := init_axis_labels TOUCHPAD_NUM_AXES
  let min : Int := -1
  let max : Int := -1
  let res : Int := 0
  ([ InitPointerDeviceStruct btnmap TOUCHPAD_MAX_BUTTONS btnlabels
       Callback.xf86libinput_ptr_ctl history TOUCHPAD_NUM_AXES axislabels,
     xf86InitValuatorAxisStruct 0 Atom.AXIS_LABEL_PROP_REL_X min max
       (res * 1000) 0 (res * 1000) Relative,
     xf86InitValuatorAxisStruct 1 Atom.AXIS_LABEL_PROP_REL_Y min max
       (res * 1000) 0 (res * 1000) Relative,
     SetScrollValuator 2 SCROLL_TYPE_HORIZONTAL driver_data.scroll_hdist 0,
     SetScrollValuator 3 SCROLL_TYPE_VERTICAL driver_data.scroll_vdist 0 ],
   Success)

/-- The function `xf86libinput_init_keyboard`. -/
def xf86libinput_init_keyboard : List InitCall :=
  [InitKeyboardDeviceStruct Callback.xf86libinput_kbd_ctrl]

/-- The function `xf86libinput_init_touch`. -/
def xf86libinput_init_touch (history : Nat) : List InitCall :=
  let btnmap := init_button_map (TOUCHPAD_MAX_BUTTONS + 1)
  let btnlabels := init_button_labels TOUCHPAD_MAX_BUTTONS
  let axislabels := init_axis_labels TOUCHPAD_NUM_AXES
  let min : Int := 0
  let max : Int := TOUCH_AXIS_MAX
  let res : Int := 0
  [ InitPointerDeviceStruct btnmap TOUCHPAD_MAX_BUTTONS btnlabels
      Callback.xf86libinput_ptr_ctl history TOUCHPAD_NUM_AXES axislabels,
    xf86InitValuatorAxisStruct 0 Atom.AXIS_LABEL_PROP_ABS_X min max
      (res * 1000) 0 (res * 1000) Absolute,
    xf86InitValuatorAxisStruct 1 Atom.AXIS_LABEL_PROP_ABS_Y min max
      (res * 1000) 0 (res * 1000) Absolute,
    InitTouchClassDeviceStruct TOUCH_MAX_SLOTS 2 ]

/-- The answers of `libinput_device_has_capability` for one device. -/
structure Capabilities where
  LIBINPUT_DEVICE_CAP_KEYBOARD : Bool
  LIBINPUT_DEVICE_CAP_POINTER : Bool
  LIBINPUT_DEVICE_CAP_TOUCH : Bool
  deriving DecidableEq

/-- The function `xf86libinput_init`, with the calls it makes, in order, and
its return value. -/
def xf86libinput_init (driver_data : xf86libinput) (caps : Capabilities)
    (history : Nat) : List InitCall × Int :=
  let device := driver_data.device
  let c1 := if caps.LIBINPUT_DEVICE_CAP_KEYBOARD then xf86libinput_init_keyboard else []
  let c2 := if caps.LIBINPUT_DEVICE_CAP_POINTER then
      (xf86libinput_init_pointer driver_data history).1 else []
  let c3 := if caps.LIBINPUT_DEVICE_CAP_TOUCH then xf86libinput_init_touch history else []
  (c1 ++ c2 ++ c3 ++ [libinput_device_unref device], 0)

/-! ## The driver context: pre-init and uninit -/

/-- The static `driver_context` of type `struct xf86libinput_driver`; a
`NULL` context pointer is `none`. -/
structure xf86libinput_driver where
  libinput : Option Nat
  device_count : Int
  deriving DecidableEq

/-- The static `driver_context` at program start: zero-initialised. -/
def driver_context_initial : xf86libinput_driver :=
  { libinput := none, device_count := 0 }

/-- The fields of the server's `InputInfoRec` the modelled functions write;
a `NULL` private pointer is `none`. -/
structure InputInfo where
  fd : Int
  priv : Option xf86libinput
  deriving DecidableEq

/-- The results of the calls `xf86libinput_pre_init` makes outside this file,
each being what the call returns if it is reached. -/
structure PreInitCalls where
  /-- Whether `calloc` returns a non-null pointer. -/
  calloc_ok : Bool
  /-- The result of `xf86SetStrOption(pInfo->options, "Device", NULL)`. -/
  path : Option String
  /-- The result of `libinput_path_create_context`. -/
  create_context : Option Nat
  /-- The result of `libinput_path_add_device`. -/
  add_device : Option Nat
  deriving DecidableEq

/-- The function `xf86libinput_pre_init`: the driver context and `pInfo`
after the call and the returned status.  The `free` calls of the `fail` label
release memory only and are not part of the state. -/
def xf86libinput_pre_init (driver_context : xf86libinput_driver) (pInfo : InputInfo)
    (calls : PreInitCalls) : xf86libinput_driver × InputInfo × Int :=
  let driver_context :=
    { driver_context with device_count := int_wrap (driver_context.device_count + 1) }
  let pInfo := { pInfo with fd := -1 }
  if !calls.calloc_ok then (driver_context, pInfo, BadValue)
  else
    match calls.path with
    | none => (driver_context, pInfo, BadValue)
    | some path =>
      let driver_context :=
        if driver_context.libinput = none then
          { driver_context with libinput := calls.create_context }
        else driver_context
      match driver_context.libinput with
      | none => (driver_context, pInfo, BadValue)
      | some _libinput =>
        match calls.add_device with
        | none => (driver_context, pInfo, BadValue)
        | some device =>
          (driver_context,
           { pInfo with priv := some { path := path, device := device,
                                       scroll_vdist := 1, scroll_hdist := 1 } },
           Success)

/-- The function `xf86libinput_uninit`: the driver context and `pInfo`
after the call, and the contexts passed to `libinput_destroy`. -/
def xf86libinput_uninit (driver_context : xf86libinput_driver) (pInfo : InputInfo) :
    xf86libinput_driver × InputInfo × List (Option Nat) :=
  match pInfo.priv with
  | none => (driver_context, pInfo, [])
  | some _driver_data =>
    let driver_context :=
      { driver_context with device_count := int_wrap (driver_context.device_count - 1) }
    if driver_context.device_count = 0 then
      ({ driver_context with libinput := none }, { pInfo with priv := none },
       [driver_context.libinput])
    else
      (driver_context, { pInfo with priv := none }, [])

/-! ## Auxiliary definitions used to state the properties -/

/-- The scroll valuators a list of registration calls sets up: axis number
and scroll type of every `SetScrollValuator` call, in order. -/
def scroll_valuators : List InitCall → List (Nat × ScrollType)
  | [] => []
  | SetScrollValuator axnum type _ _ :: rest => (axnum, type) :: scroll_valuators rest
  | _ :: rest => scroll_valuators rest

/-- The axis counts a list of registration calls passes to
`InitPointerDeviceStruct`, in order. -/
def registered_axis_counts : List InitCall → List Nat
  | [] => []
  | InitPointerDeviceStruct _ _ _ _ _ numAxes _ :: rest => numAxes :: registered_axis_counts rest
  | _ :: rest => registered_axis_counts rest

/-- Whether a call is one only `xf86libinput_init_keyboard` makes. -/
def is_keyboard_call : InitCall → Bool
  | InitKeyboardDeviceStruct _ => true
  | _ => false

/-- Whether a call is one only `xf86libinput_init_pointer` makes, once per
run: the registration of the vertical scroll valuator. -/
def is_pointer_call : InitCall → Bool
  | SetScrollValuator _ SCROLL_TYPE_VERTICAL _ _ => true
  | _ => false

/-- Whether a call is one only `xf86libinput_init_touch` makes. -/
def is_touch_call : InitCall → Bool
  | InitTouchClassDeviceStruct _ _ => true
  | _ => false

/-- The number of touch-down events in a sequence of touch events. -/
def touch_downs : List (Nat × libinput_event_touch) → Nat
  | [] => 0
  | (_, event) :: rest =>
    (if event.touch_type = LIBINPUT_TOUCH_TYPE_DOWN then 1 else 0) + touch_downs rest

/-! ## Properties of the event handlers -/

/-- C1: a button event with code `BTN_LEFT`, `BTN_MIDDLE` or `BTN_RIGHT` posts
exactly one button event, with ordinal 1, 2 or 3 respectively and `is_down`
equal to 1 when the button state is PRESSED and 0 otherwise; a button event
with any other code posts nothing. -/
theorem handle_button_translation (dev : Nat) (event : libinput_event_pointer) :
    (event.button = BTN_LEFT →
      xf86libinput_handle_button dev event =
        [xf86PostButtonEvent dev Relative 1
          (if event.button_state = LIBINPUT_POINTER_BUTTON_STATE_PRESSED then 1 else 0) 0 0]) ∧
    (event.button = BTN_MIDDLE →
      xf86libinput_handle_button dev event =
        [xf86PostButtonEvent dev Relative 2
          (if event.button_state = LIBINPUT_POINTER_BUTTON_STATE_PRESSED then 1 else 0) 0 0]) ∧
    (event.button = BTN_RIGHT →
      xf86libinput_handle_button dev event =
        [xf86PostButtonEvent dev Relative 3
          (if event.button_state = LIBINPUT_POINTER_BUTTON_STATE_PRESSED then 1 else 0) 0 0]) ∧
    (event.button ≠ BTN_LEFT → event.button ≠ BTN_MIDDLE → event.button ≠ BTN_RIGHT →
      xf86libinput_handle_button dev event = []) := by
  refine ⟨fun h => ?_, fun h => ?_, fun h => ?_, fun h1 h2 h3 => ?_⟩
  · simp [xf86libinput_handle_button, h]
  · simp [xf86libinput_handle_button, h, BTN_MIDDLE, BTN_LEFT]
  · simp [xf86libinput_handle_button, h, BTN_MIDDLE, BTN_LEFT, BTN_RIGHT]
  · simp [xf86libinput_handle_button, h1, h2, h3]

/-- Witness of C1: a pressed left button, a released middle button, a pressed
right button, and the side button `0x113`, which is dropped. -/
theorem handle_button_translation_witness :
    xf86libinput_handle_button 7
        ⟨0, 0, BTN_LEFT, LIBINPUT_POINTER_BUTTON_STATE_PRESSED,
          LIBINPUT_POINTER_AXIS_VERTICAL_SCROLL, 0⟩ =
      [xf86PostButtonEvent 7 Relative 1 1 0 0] ∧
    xf86libinput_handle_button 7
        ⟨0, 0, BTN_MIDDLE, LIBINPUT_POINTER_BUTTON_STATE_RELEASED,
          LIBINPUT_POINTER_AXIS_VERTICAL_SCROLL, 0⟩ =
      [xf86PostButtonEvent 7 Relative 2 0 0 0] ∧
    xf86libinput_handle_button 7
        ⟨0, 0, BTN_RIGHT, LIBINPUT_POINTER_BUTTON_STATE_PRESSED,
          LIBINPUT_POINTER_AXIS_VERTICAL_SCROLL, 0⟩ =
      [xf86PostButtonEvent 7 Relative 3 1 0 0] ∧
    xf86libinput_handle_button 7
        ⟨0, 0, 0x113, LIBINPUT_POINTER_BUTTON_STATE_PRESSED,
          LIBINPUT_POINTER_AXIS_VERTICAL_SCROLL, 0⟩ = [] :=
  ⟨(handle_button_translation 7 _).1 rfl,
   (handle_button_translation 7 _).2.1 rfl,
   (handle_button_translation 7 _).2.2.1 rfl,
   (handle_button_translation 7 _).2.2.2 (by decide) (by decide) (by decide)⟩

/-- An integer inside the range of a C `int` is left alone by `int_wrap`. -/
theorem int_wrap_of_range (x : Int) (h1 : -2 ^ 31 ≤ x) (h2 : x < 2 ^ 31) :
    int_wrap x = x := by
  unfold int_wrap
  have h : (x + 2 ^ 31) % 2 ^ 32 = x + 2 ^ 31 := Int.emod_eq_of_lt (by omega) (by omega)
  omega

/-- Reduction into the range of an `int` does not change the residue
modulo 2^32. -/
theorem int_wrap_emod (x : Int) : int_wrap x % 2 ^ 32 = x % 2 ^ 32 := by
  unfold int_wrap
  omega

/-- C2, as amended: a key event whose key code plus 8 is below 2^32 posts
exactly one keyboard event; its key code is the library key code plus 8, and
its press flag is 1 when the key state is PRESSED and 0 otherwise. -/
theorem handle_key_translation (dev : Nat) (event : libinput_event_keyboard)
    (h : event.key + 8 < 2 ^ 32) :
    xf86libinput_handle_key dev event =
      [xf86PostKeyboardEvent dev (event.key + 8)
        (if event.key_state = LIBINPUT_KEYBOARD_KEY_STATE_PRESSED then 1 else 0)] := by
  have e1 := int_wrap_emod (int_wrap (event.key : Int) + 8)
  have e2 := int_wrap_emod (event.key : Int)
  have e3 : int_to_unsigned (int_wrap (int_wrap (event.key : Int) + 8)) = event.key + 8 := by
    unfold int_to_unsigned
    omega
  simp [xf86libinput_handle_key, XORG_KEYCODE_OFFSET, e3]

/-- Witness of C2, as amended: the key `KEY_A` (30) pressed is posted as key
code 38 with press flag 1, and the key 4294967287 released is posted as key
code 4294967295 with press flag 0. -/
theorem handle_key_translation_witness :
    30 + 8 < 2 ^ 32 ∧
    xf86libinput_handle_key 7 ⟨30, LIBINPUT_KEYBOARD_KEY_STATE_PRESSED⟩ =
      [xf86PostKeyboardEvent 7 38 1] ∧
    xf86libinput_handle_key 7 ⟨4294967287, LIBINPUT_KEYBOARD_KEY_STATE_RELEASED⟩ =
      [xf86PostKeyboardEvent 7 4294967295 0] :=
  ⟨by decide,
   handle_key_translation 7 ⟨30, LIBINPUT_KEYBOARD_KEY_STATE_PRESSED⟩ (by decide),
   handle_key_translation 7 ⟨4294967287, LIBINPUT_KEYBOARD_KEY_STATE_RELEASED⟩ (by decide)⟩

/-- C2 as stated fails: the key event with key code 4294967295, pressed, is
posted with key code 7 and not with 4294967295 + 8, so it is not true of every
key event that the posted key code is the library key code plus 8. -/
theorem handle_key_wraps_at_uint_max :
    xf86libinput_handle_key 7 ⟨4294967295, LIBINPUT_KEYBOARD_KEY_STATE_PRESSED⟩ =
      [xf86PostKeyboardEvent 7 7 1] ∧
    xf86libinput_handle_key 7 ⟨4294967295, LIBINPUT_KEYBOARD_KEY_STATE_PRESSED⟩ ≠
      [xf86PostKeyboardEvent 7 (4294967295 + 8) 1] ∧
    ¬ (∀ (dev : Nat) (event : libinput_event_keyboard),
        xf86libinput_handle_key dev event =
          [xf86PostKeyboardEvent dev (event.key + 8)
            (if event.key_state = LIBINPUT_KEYBOARD_KEY_STATE_PRESSED then 1 else 0)]) := by
  refine ⟨by decide, by decide, fun hall => ?_⟩
  have h := hall 7 ⟨4294967295, LIBINPUT_KEYBOARD_KEY_STATE_PRESSED⟩
  revert h
  decide

/-- C3: a scroll axis event posts exactly one relative motion with one
valuator; the first valuator is 3 for a vertical and 4 for a horizontal
scroll event; the value is the fixed-point axis value divided by 256 and
rounded toward zero. -/
theorem handle_axis_translation (dev : Nat) (event : libinput_event_pointer) :
    xf86libinput_handle_axis dev
        { event with axis := LIBINPUT_POINTER_AXIS_VERTICAL_SCROLL } =
      [xf86PostMotionEvent dev Relative 3 1 [li_fixed_to_int event.axis_value]] ∧
    xf86libinput_handle_axis dev
        { event with axis := LIBINPUT_POINTER_AXIS_HORIZONTAL_SCROLL } =
      [xf86PostMotionEvent dev Relative 4 1 [li_fixed_to_int event.axis_value]] ∧
    li_fixed_to_int event.axis_value =
      (if 0 ≤ event.axis_value then event.axis_value / 256
       else -((-event.axis_value) / 256)) := by
  refine ⟨by simp [xf86libinput_handle_axis], by simp [xf86libinput_handle_axis], ?_⟩
  unfold li_fixed_to_int
  split_ifs with h
  · exact Int.tdiv_eq_ediv h (by decide)
  · have h0 : (0 : Int) ≤ -event.axis_value := by omega
    have e : event.axis_value = -(-event.axis_value) := by omega
    conv_lhs => rw [e]
    rw [Int.neg_tdiv, Int.tdiv_eq_ediv h0 (by decide)]

/-! ## Keyboard LEDs -/

/-- C6 (the code departs from it): whatever the X LED mask, the mask handed to
`libinput_device_led_update` is 0 or 1, so the caps-lock and scroll-lock bits
are never set; with only the caps flag set in the X mask, the forwarded mask
is `LIBINPUT_LED_NUM_LOCK`, with the caps-lock bit clear, and with two or all
three flags set the forwarded mask is still the single bit 1. -/
theorem kbd_ctrl_forwards_one_bit :
    (∀ ctrl_leds : Nat, xf86libinput_kbd_ctrl ctrl_leds = 0 ∨
      xf86libinput_kbd_ctrl ctrl_leds = 1) ∧
    xf86libinput_kbd_ctrl CAPSFLAG = LIBINPUT_LED_NUM_LOCK ∧
    xf86libinput_kbd_ctrl CAPSFLAG &&& LIBINPUT_LED_CAPS_LOCK = 0 ∧
    xf86libinput_kbd_ctrl CAPSFLAG &&& LIBINPUT_LED_NUM_LOCK ≠ 0 ∧
    CAPSFLAG &&& NUMFLAG = 0 ∧
    xf86libinput_kbd_ctrl (CAPSFLAG ||| NUMFLAG) = 1 ∧
    xf86libinput_kbd_ctrl (CAPSFLAG ||| NUMFLAG ||| SCROLLFLAG) = 1 := by
  refine ⟨fun ctrl_leds => ?_, by decide, by decide, by decide, by decide, by decide,
    by decide⟩
  simp only [xf86libinput_kbd_ctrl, bits, kbd_ctrl_loop, CAPSFLAG, NUMFLAG, SCROLLFLAG]
  split_ifs <;> simp_all

/-! ## The read callback -/

/-- C7: when `libinput_dispatch` returns a negative value, the read callback
returns without fetching any queued event and without posting anything; it
reports no error when the value is `-EAGAIN` and exactly one error
otherwise. -/
theorem read_input_negative_dispatch (st : TouchStatics) (rc : Int)
    (pending : List libinput_event) (h : rc < 0) :
    xf86libinput_read_input st rc pending =
      some { statics := st, pending := pending, posted := [],
             errors := if rc = -EAGAIN then [] else [int_wrap (-rc)] } := by
  unfold xf86libinput_read_input
  by_cases hr : rc = -EAGAIN
  · simp [hr]
  · simp [hr, h]

/-- Witness of C7: with a key press queued, a dispatch result of `-EAGAIN`
leaves the queue alone and reports nothing, and a result of `-5` (`EIO`)
leaves the queue alone and reports one error. -/
theorem read_input_negative_dispatch_witness :
    xf86libinput_read_input TouchStatics.initial (-11)
        [⟨0, LIBINPUT_EVENT_KEYBOARD_KEY ⟨30, LIBINPUT_KEYBOARD_KEY_STATE_PRESSED⟩⟩] =
      some { statics := TouchStatics.initial,
             pending := [⟨0, LIBINPUT_EVENT_KEYBOARD_KEY
               ⟨30, LIBINPUT_KEYBOARD_KEY_STATE_PRESSED⟩⟩],
             posted := [],
             errors := if (-11 : Int) = -EAGAIN then [] else [int_wrap (-(-11))] } ∧
    xf86libinput_read_input TouchStatics.initial (-5)
        [⟨0, LIBINPUT_EVENT_KEYBOARD_KEY ⟨30, LIBINPUT_KEYBOARD_KEY_STATE_PRESSED⟩⟩] =
      some { statics := TouchStatics.initial,
             pending := [⟨0, LIBINPUT_EVENT_KEYBOARD_KEY
               ⟨30, LIBINPUT_KEYBOARD_KEY_STATE_PRESSED⟩⟩],
             posted := [],
             errors := if (-5 : Int) = -EAGAIN then [] else [int_wrap (-(-5))] } :=
  ⟨read_input_negative_dispatch _ (-11) _ (by decide),
   read_input_negative_dispatch _ (-5) _ (by decide)⟩

/-! ## The driver context -/

/-- C8 (the code departs from it): every call of `xf86libinput_pre_init`,
failing or not, leaves `device_count` one higher.  From the initial context, a
pre-init that fails for want of a `Device` option returns `BadValue`, binds
nothing and leaves the count at 1, and an uninit of that unbound device does
not touch the count; after a successful pre-init of a second device the count
is 2, and the uninit of that only live binding brings it to 1, so the shared
context is neither destroyed nor reset. -/
theorem failed_pre_init_keeps_count :
    (∀ (driver_context : xf86libinput_driver) (pInfo : InputInfo) (calls : PreInitCalls),
      (xf86libinput_pre_init driver_context pInfo calls).1.device_count =
        int_wrap (driver_context.device_count + 1)) ∧
    xf86libinput_pre_init driver_context_initial ⟨0, none⟩ ⟨true, none, some 100, some 200⟩ =
      (⟨none, 1⟩, ⟨-1, none⟩, BadValue) ∧
    xf86libinput_uninit ⟨none, 1⟩ ⟨-1, none⟩ = (⟨none, 1⟩, ⟨-1, none⟩, []) ∧
    xf86libinput_pre_init ⟨none, 1⟩ ⟨0, none⟩
        ⟨true, some "/dev/input/event3", some 100, some 200⟩ =
      (⟨some 100, 2⟩, ⟨-1, some ⟨"/dev/input/event3", 200, 1, 1⟩⟩, Success) ∧
    xf86libinput_uninit ⟨some 100, 2⟩ ⟨-1, some ⟨"/dev/input/event3", 200, 1, 1⟩⟩ =
      (⟨some 100, 1⟩, ⟨-1, none⟩, []) := by
  refine ⟨fun driver_context pInfo calls => ?_, by decide, by decide, by decide, by decide⟩
  obtain ⟨libinput, device_count⟩ := driver_context
  obtain ⟨calloc_ok, path, create_context, add_device⟩ := calls
  cases calloc_ok <;> cases path <;> cases libinput <;> cases create_context <;>
    cases add_device <;> simp [xf86libinput_pre_init]

/-! ## Device initialisation -/

/-- C9: `xf86libinput_init` returns 0 and makes, in this order, the calls of
the keyboard initializer iff the device has the keyboard capability, those of
the pointer initializer iff it has the pointer capability, those of the touch
initializer iff it has the touch capability, and the final unref; each
initializer thus runs once or not at all.  For a keyboard and pointer device
a keyboard class is registered, and a pointer class with
`TOUCHPAD_MAX_BUTTONS` = 7 buttons and `TOUCHPAD_NUM_AXES` = 4 axes. -/
theorem init_runs_one_initializer_per_capability (driver_data : xf86libinput)
    (caps : Capabilities) (history : Nat) :
    (xf86libinput_init driver_data caps history).2 = 0 ∧
    (xf86libinput_init driver_data caps history).1 =
      (if caps.LIBINPUT_DEVICE_CAP_KEYBOARD then xf86libinput_init_keyboard else []) ++
      (if caps.LIBINPUT_DEVICE_CAP_POINTER then
        (xf86libinput_init_pointer driver_data history).1 else []) ++
      (if caps.LIBINPUT_DEVICE_CAP_TOUCH then xf86libinput_init_touch history else []) ++
      [libinput_device_unref driver_data.device] ∧
    ((xf86libinput_init driver_data caps history).1.countP is_keyboard_call =
      if caps.LIBINPUT_DEVICE_CAP_KEYBOARD then 1 else 0) ∧
    ((xf86libinput_init driver_data caps history).1.countP is_pointer_call =
      if caps.LIBINPUT_DEVICE_CAP_POINTER then 1 else 0) ∧
    ((xf86libinput_init driver_data caps history).1.countP is_touch_call =
      if caps.LIBINPUT_DEVICE_CAP_TOUCH then 1 else 0) ∧
    (xf86libinput_init driver_data
        { LIBINPUT_DEVICE_CAP_KEYBOARD := true, LIBINPUT_DEVICE_CAP_POINTER := true,
          LIBINPUT_DEVICE_CAP_TOUCH := false } history).1 =
      [ InitKeyboardDeviceStruct Callback.xf86libinput_kbd_ctrl,
        InitPointerDeviceStruct [0, 1, 2, 3, 4, 5, 6, 7] 7
          [Atom.BTN_LABEL_PROP_BTN_LEFT, Atom.BTN_LABEL_PROP_BTN_MIDDLE,
           Atom.BTN_LABEL_PROP_BTN_RIGHT, Atom.BTN_LABEL_PROP_BTN_WHEEL_UP,
           Atom.BTN_LABEL_PROP_BTN_WHEEL_DOWN, Atom.BTN_LABEL_PROP_BTN_HWHEEL_LEFT,
           Atom.BTN_LABEL_PROP_BTN_HWHEEL_RIGHT]
          Callback.xf86libinput_ptr_ctl history 4
          [Atom.AXIS_LABEL_PROP_REL_X, Atom.AXIS_LABEL_PROP_REL_Y,
           Atom.AXIS_LABEL_PROP_REL_HSCROLL, Atom.AXIS_LABEL_PROP_REL_VSCROLL],
        xf86InitValuatorAxisStruct 0 Atom.AXIS_LABEL_PROP_REL_X (-1) (-1) 0 0 0 Relative,
        xf86InitValuatorAxisStruct 1 Atom.AXIS_LABEL_PROP_REL_Y (-1) (-1) 0 0 0 Relative,
        SetScrollValuator 2 SCROLL_TYPE_HORIZONTAL driver_data.scroll_hdist 0,
        SetScrollValuator 3 SCROLL_TYPE_VERTICAL driver_data.scroll_vdist 0,
        libinput_device_unref driver_data.device ] := by
  obtain ⟨k, p, t⟩ := caps
  refine ⟨rfl, rfl, ?_, ?_, ?_, ?_⟩
  · cases k <;> cases p <;> cases t <;> rfl
  · cases k <;> cases p <;> cases t <;> rfl
  · cases k <;> cases p <;> cases t <;> rfl
  · rfl

/-- C10 (the code departs from it): a horizontal scroll event is posted on
first valuator 4, which is not below the `TOUCHPAD_NUM_AXES` = 4 axes that
`xf86libinput_init_pointer` registers and is not the valuator 2 it registers
as `SCROLL_TYPE_HORIZONTAL`; a vertical scroll event is posted on valuator 3,
the one registered as `SCROLL_TYPE_VERTICAL`. -/
theorem horizontal_scroll_valuator_unregistered (dev : Nat) (event : libinput_event_pointer)
    (driver_data : xf86libinput) (history : Nat) :
    xf86libinput_handle_axis dev
        { event with axis := LIBINPUT_POINTER_AXIS_HORIZONTAL_SCROLL } =
      [xf86PostMotionEvent dev Relative 4 1 [li_fixed_to_int event.axis_value]] ∧
    xf86libinput_handle_axis dev
        { event with axis := LIBINPUT_POINTER_AXIS_VERTICAL_SCROLL } =
      [xf86PostMotionEvent dev Relative 3 1 [li_fixed_to_int event.axis_value]] ∧
    registered_axis_counts (xf86libinput_init_pointer driver_data history).1 =
      [TOUCHPAD_NUM_AXES] ∧
    ¬ (4 < TOUCHPAD_NUM_AXES) ∧
    scroll_valuators (xf86libinput_init_pointer driver_data history).1 =
      [(2, SCROLL_TYPE_HORIZONTAL), (3, SCROLL_TYPE_VERTICAL)] := by
  refine ⟨by simp [xf86libinput_handle_axis], by simp [xf86libinput_handle_axis],
    rfl, by decide, rfl⟩

/-! ## Touch identifiers -/

/-- A touch-down inside the table stores the next identifier in its slot,
advances the counter and posts `XI_TouchBegin` with the stored identifier. -/
theorem handle_touch_down (st : TouchStatics) (dev : Nat) (event : libinput_event_touch)
    (hd : event.touch_type = LIBINPUT_TOUCH_TYPE_DOWN)
    (hs : event.slot < st.touchids.length) :
    xf86libinput_handle_touch st dev event =
      some ({ next_touchid := int_wrap (st.next_touchid + 1),
              touchids := st.touchids.set event.slot st.next_touchid },
            [xf86PostTouchEvent dev st.next_touchid XI_TouchBegin 0 event.x event.y]) := by
  simp [xf86libinput_handle_touch, hd, hs]

/-- A touch-up or touch-motion inside the table leaves the statics alone and
posts with the identifier stored in its slot. -/
theorem handle_touch_up_motion (st : TouchStatics) (dev : Nat) (event : libinput_event_touch)
    (hm : event.touch_type = LIBINPUT_TOUCH_TYPE_UP ∨
      event.touch_type = LIBINPUT_TOUCH_TYPE_MOTION)
    (touchid : Int) (hs : st.touchids[event.slot]? = some touchid) :
    xf86libinput_handle_touch st dev event =
      some (st, [xf86PostTouchEvent dev touchid
        (if event.touch_type = LIBINPUT_TOUCH_TYPE_UP then XI_TouchEnd else XI_TouchUpdate)
        0 event.x event.y]) := by
  rcases hm with h | h <;> simp [xf86libinput_handle_touch, h, hs]

/-- An event that is not a touch-down, inside the table, leaves the statics
alone. -/
theorem handle_touch_not_down (st : TouchStatics) (dev : Nat) (event : libinput_event_touch)
    (hd : event.touch_type ≠ LIBINPUT_TOUCH_TYPE_DOWN)
    (hs : event.slot < st.touchids.length) :
    ∃ out, xf86libinput_handle_touch st dev event = some (st, out) := by
  obtain ⟨touchid, hid⟩ : ∃ touchid, st.touchids[event.slot]? = some touchid :=
    ⟨st.touchids[event.slot], List.getElem?_eq_getElem hs⟩
  cases ht : event.touch_type with
  | LIBINPUT_TOUCH_TYPE_DOWN => exact absurd ht hd
  | LIBINPUT_TOUCH_TYPE_UP => exact ⟨_, handle_touch_up_motion st dev event (Or.inl ht) _ hid⟩
  | LIBINPUT_TOUCH_TYPE_MOTION => exact ⟨_, handle_touch_up_motion st dev event (Or.inr ht) _ hid⟩
  | LIBINPUT_TOUCH_TYPE_FRAME => exact ⟨[], by simp [xf86libinput_handle_touch, ht]⟩
  | LIBINPUT_TOUCH_TYPE_CANCEL => exact ⟨[], by simp [xf86libinput_handle_touch, ht]⟩

/-- Every event inside the table is handled, posts at most what its kind
says, keeps the size of the table, and changes no slot other than the one of
a touch-down. -/
theorem handle_touch_step (st : TouchStatics) (dev : Nat) (event : libinput_event_touch)
    (hs : event.slot < st.touchids.length) :
    ∃ st1 out, xf86libinput_handle_touch st dev event = some (st1, out) ∧
      st1.touchids.length = st.touchids.length ∧
      (∀ s, (event.touch_type = LIBINPUT_TOUCH_TYPE_DOWN → event.slot ≠ s) →
        st1.touchids[s]? = st.touchids[s]?) := by
  by_cases hd : event.touch_type = LIBINPUT_TOUCH_TYPE_DOWN
  · refine ⟨_, _, handle_touch_down st dev event hd hs, by simp, fun s hne => ?_⟩
    simp [List.getElem?_set_ne (hne hd)]
  · obtain ⟨out, ho⟩ := handle_touch_not_down st dev event hd hs
    exact ⟨st, out, ho, rfl, fun _ _ => rfl⟩

/-- Handling a sequence of events is handling a first part and then, from the
statics it leaves, the rest. -/
theorem handle_touch_sequence_append (st : TouchStatics)
    (a b : List (Nat × libinput_event_touch)) (st1 : TouchStatics) (o1 : List (List XPost))
    (ha : handle_touch_sequence st a = some (st1, o1)) :
    handle_touch_sequence st (a ++ b) =
      (handle_touch_sequence st1 b).map (fun r => (r.1, o1 ++ r.2)) := by
  induction a generalizing st o1 with
  | nil =>
    simp only [handle_touch_sequence, Option.some.injEq, Prod.mk.injEq] at ha
    obtain ⟨rfl, rfl⟩ := ha
    cases hb : handle_touch_sequence st b <;> simp [hb]
  | cons p a ih =>
    obtain ⟨dev, event⟩ := p
    simp only [List.cons_append, handle_touch_sequence] at ha ⊢
    cases h1 : xf86libinput_handle_touch st dev event with
    | none => simp [h1] at ha
    | some r =>
      obtain ⟨st2, out⟩ := r
      simp only [h1] at ha ⊢
      cases h2 : handle_touch_sequence st2 a with
      | none => simp [h2] at ha
      | some r2 =>
        obtain ⟨st3, outs⟩ := r2
        simp only [h2, Option.some.injEq, Prod.mk.injEq] at ha
        obtain ⟨rfl, rfl⟩ := ha
        have e := ih st2 outs h2
        simp only [List.append_eq] at e ⊢
        rw [e]
        cases hb : handle_touch_sequence st3 b <;> simp

/-- A sequence of events with slots inside the table is handled to the end,
with one output per event; the table keeps its size, and a slot on which the
sequence has no touch-down keeps its identifier. -/
theorem handle_touch_sequence_total (st : TouchStatics)
    (evs : List (Nat × libinput_event_touch))
    (hl : st.touchids.length = TOUCH_MAX_SLOTS)
    (hs : ∀ p ∈ evs, p.2.slot < TOUCH_MAX_SLOTS) :
    ∃ st1 outs, handle_touch_sequence st evs = some (st1, outs) ∧
      st1.touchids.length = TOUCH_MAX_SLOTS ∧ outs.length = evs.length ∧
      (∀ s, (∀ p ∈ evs, p.2.touch_type = LIBINPUT_TOUCH_TYPE_DOWN → p.2.slot ≠ s) →
        st1.touchids[s]? = st.touchids[s]?) := by
  induction evs generalizing st with
  | nil => exact ⟨st, [], rfl, hl, rfl, fun _ _ => rfl⟩
  | cons p evs ih =>
    obtain ⟨dev, event⟩ := p
    have hslot : event.slot < st.touchids.length := by
      rw [hl]; exact hs (dev, event) (List.mem_cons_self _ _)
    obtain ⟨st1, out, h1, hl1, hk1⟩ := handle_touch_step st dev event hslot
    obtain ⟨st2, outs, h2, hl2, hn2, hk2⟩ :=
      ih st1 (hl1.trans hl) (fun q hq => hs q (List.mem_cons_of_mem _ hq))
    refine ⟨st2, out :: outs, by simp [handle_touch_sequence, h1, h2], hl2, by simp [hn2],
      fun s hno => ?_⟩
    rw [hk2 s (fun q hq => hno q (List.mem_cons_of_mem _ hq))]
    exact hk1 s (hno (dev, event) (List.mem_cons_self _ _))

/-- The identifier a touch-down stores in its slot is still there after any
events that include no touch-down on that slot, and is the one the next
motion or up on that slot is posted with; stated from any statics with a full
table. -/
theorem stable_touch_id_from (st0 : TouchStatics)
    (hl : st0.touchids.length = TOUCH_MAX_SLOTS)
    (pre mid post : List (Nat × libinput_event_touch)) (dev_d dev_m : Nat)
    (d m : libinput_event_touch)
    (hslots : ∀ p ∈ pre ++ (dev_d, d) :: (mid ++ (dev_m, m) :: post),
      p.2.slot < TOUCH_MAX_SLOTS)
    (hd : d.touch_type = LIBINPUT_TOUCH_TYPE_DOWN)
    (hm : m.touch_type = LIBINPUT_TOUCH_TYPE_UP ∨ m.touch_type = LIBINPUT_TOUCH_TYPE_MOTION)
    (hslot : m.slot = d.slot)
    (hmid : ∀ p ∈ mid, p.2.touch_type = LIBINPUT_TOUCH_TYPE_DOWN → p.2.slot ≠ d.slot) :
    ∃ st1 o_pre o_mid o_post touchid,
      handle_touch_sequence st0 (pre ++ (dev_d, d) :: (mid ++ (dev_m, m) :: post)) =
        some (st1, o_pre ++
          [xf86PostTouchEvent dev_d touchid XI_TouchBegin 0 d.x d.y] :: (o_mid ++
          [xf86PostTouchEvent dev_m touchid
            (if m.touch_type = LIBINPUT_TOUCH_TYPE_UP then XI_TouchEnd else XI_TouchUpdate)
            0 m.x m.y] :: o_post)) ∧
      o_pre.length = pre.length ∧ o_mid.length = mid.length ∧
      o_post.length = post.length := by
  have hs_pre : ∀ p ∈ pre, p.2.slot < TOUCH_MAX_SLOTS := fun p hp =>
    hslots p (List.mem_append_left _ hp)
  have hs_d : d.slot < TOUCH_MAX_SLOTS :=
    hslots (dev_d, d) (List.mem_append_right _ (List.mem_cons_self _ _))
  have hs_mid : ∀ p ∈ mid, p.2.slot < TOUCH_MAX_SLOTS := fun p hp =>
    hslots p (List.mem_append_right _ (List.mem_cons_of_mem _ (List.mem_append_left _ hp)))
  have hs_post : ∀ p ∈ post, p.2.slot < TOUCH_MAX_SLOTS := fun p hp =>
    hslots p (List.mem_append_right _ (List.mem_cons_of_mem _
      (List.mem_append_right _ (List.mem_cons_of_mem _ hp))))
  obtain ⟨s1, o_pre, h1, hl1, hn1, -⟩ := handle_touch_sequence_total st0 pre hl hs_pre
  have h2 := handle_touch_down s1 dev_d d hd (by rw [hl1]; exact hs_d)
  obtain ⟨s3, o_mid, h3, hl3, hn3, hk3⟩ :=
    handle_touch_sequence_total
      { next_touchid := int_wrap (s1.next_touchid + 1),
        touchids := s1.touchids.set d.slot s1.next_touchid } mid
      (by simp [hl1]) hs_mid
  have hid : s3.touchids[m.slot]? = some s1.next_touchid := by
    rw [hslot, hk3 d.slot hmid]
    simp [hl1, hs_d]
  have h4 := handle_touch_up_motion s3 dev_m m hm s1.next_touchid hid
  obtain ⟨s5, o_post, h5, -, hn5, -⟩ := handle_touch_sequence_total s3 post hl3 hs_post
  refine ⟨s5, o_pre, o_mid, o_post, s1.next_touchid, ?_, hn1, hn3, hn5⟩
  rw [handle_touch_sequence_append st0 pre _ s1 o_pre h1]
  simp only [handle_touch_sequence, h2]
  rw [handle_touch_sequence_append _ mid _ s3 o_mid h3]
  simp [handle_touch_sequence, h4, h5]

/-- C4: in every sequence of touch events with slots below `TOUCH_MAX_SLOTS`,
handled from the initial statics, a motion or up event on a slot is posted
with the identifier that the latest touch-down before it on that slot was
posted with, whatever happens on other slots in between (every event is
handled and posts as its kind says).  In particular, after any such events, a
down, a motion and an up on slot 2 post `XI_TouchBegin`, `XI_TouchUpdate` and
`XI_TouchEnd` with one and the same identifier. -/
theorem touch_id_stable (pre mid post : List (Nat × libinput_event_touch))
    (dev_d dev_m : Nat) (d m : libinput_event_touch)
    (hslots : ∀ p ∈ pre ++ (dev_d, d) :: (mid ++ (dev_m, m) :: post),
      p.2.slot < TOUCH_MAX_SLOTS)
    (hd : d.touch_type = LIBINPUT_TOUCH_TYPE_DOWN)
    (hm : m.touch_type = LIBINPUT_TOUCH_TYPE_UP ∨ m.touch_type = LIBINPUT_TOUCH_TYPE_MOTION)
    (hslot : m.slot = d.slot)
    (hmid : ∀ p ∈ mid, p.2.touch_type = LIBINPUT_TOUCH_TYPE_DOWN → p.2.slot ≠ d.slot) :
    (∃ st1 o_pre o_mid o_post touchid,
      handle_touch_sequence TouchStatics.initial
          (pre ++ (dev_d, d) :: (mid ++ (dev_m, m) :: post)) =
        some (st1, o_pre ++
          [xf86PostTouchEvent dev_d touchid XI_TouchBegin 0 d.x d.y] :: (o_mid ++
          [xf86PostTouchEvent dev_m touchid
            (if m.touch_type = LIBINPUT_TOUCH_TYPE_UP then XI_TouchEnd else XI_TouchUpdate)
            0 m.x m.y] :: o_post)) ∧
      o_pre.length = pre.length ∧ o_mid.length = mid.length ∧
      o_post.length = post.length) ∧
    (∀ (dev : Nat) (x1 y1 x2 y2 x3 y3 : Int),
      ∃ st1 o_pre touchid,
        handle_touch_sequence TouchStatics.initial
            (pre ++ [(dev, ⟨2, LIBINPUT_TOUCH_TYPE_DOWN, x1, y1⟩),
                     (dev, ⟨2, LIBINPUT_TOUCH_TYPE_MOTION, x2, y2⟩),
                     (dev, ⟨2, LIBINPUT_TOUCH_TYPE_UP, x3, y3⟩)]) =
          some (st1, o_pre ++
            [[xf86PostTouchEvent dev touchid XI_TouchBegin 0 x1 y1],
             [xf86PostTouchEvent dev touchid XI_TouchUpdate 0 x2 y2],
             [xf86PostTouchEvent dev touchid XI_TouchEnd 0 x3 y3]]) ∧
        o_pre.length = pre.length) := by
  have hinit : TouchStatics.initial.touchids.length = TOUCH_MAX_SLOTS := by
    simp [TouchStatics.initial]
  refine ⟨stable_touch_id_from _ hinit pre mid post dev_d dev_m d m hslots hd hm hslot hmid,
    fun dev x1 y1 x2 y2 x3 y3 => ?_⟩
  have hs_pre : ∀ p ∈ pre, p.2.slot < TOUCH_MAX_SLOTS := fun p hp =>
    hslots p (List.mem_append_left _ hp)
  obtain ⟨s1, o_pre, h1, hl1, hn1, -⟩ :=
    handle_touch_sequence_total TouchStatics.initial pre hinit hs_pre
  have hlt : 2 < s1.touchids.length := by rw [hl1]; decide
  refine ⟨{ next_touchid := int_wrap (s1.next_touchid + 1),
             touchids := s1.touchids.set 2 s1.next_touchid },
    o_pre, s1.next_touchid, ?_, hn1⟩
  rw [handle_touch_sequence_append _ pre _ s1 o_pre h1]
  simp [handle_touch_sequence, xf86libinput_handle_touch, hlt, XI_TouchBegin, XI_TouchUpdate,
    XI_TouchEnd]

/-- Witness of C4: with a down on slot 5 first and a motion on slot 5 between
them, a down and an up on slot 2 carry the same identifier. -/
theorem touch_id_stable_witness :
    (∃ st1 o_pre o_mid o_post touchid,
      handle_touch_sequence TouchStatics.initial
          ([(0, ⟨5, LIBINPUT_TOUCH_TYPE_DOWN, 0, 0⟩)] ++
            (0, ⟨2, LIBINPUT_TOUCH_TYPE_DOWN, 256, 512⟩) ::
            ([(0, ⟨5, LIBINPUT_TOUCH_TYPE_MOTION, 0, 0⟩)] ++
              (0, ⟨2, LIBINPUT_TOUCH_TYPE_UP, 768, 1024⟩) :: [])) =
        some (st1, o_pre ++
          [xf86PostTouchEvent 0 touchid XI_TouchBegin 0 256 512] :: (o_mid ++
          [xf86PostTouchEvent 0 touchid XI_TouchEnd 0 768 1024] :: o_post)) ∧
      o_pre.length = 1 ∧ o_mid.length = 1 ∧ o_post.length = 0) ∧
    handle_touch_sequence TouchStatics.initial
        [(0, ⟨5, LIBINPUT_TOUCH_TYPE_DOWN, 0, 0⟩), (0, ⟨2, LIBINPUT_TOUCH_TYPE_DOWN, 256, 512⟩),
         (0, ⟨5, LIBINPUT_TOUCH_TYPE_MOTION, 0, 0⟩), (0, ⟨2, LIBINPUT_TOUCH_TYPE_UP, 768, 1024⟩)] =
      some (⟨2, [0, 0, 1, 0, 0, 0, 0, 0, 0, 0, 0, 0, 0, 0, 0]⟩,
        [[xf86PostTouchEvent 0 0 XI_TouchBegin 0 0 0],
         [xf86PostTouchEvent 0 1 XI_TouchBegin 0 256 512],
         [xf86PostTouchEvent 0 0 XI_TouchUpdate 0 0 0],
         [xf86PostTouchEvent 0 1 XI_TouchEnd 0 768 1024]]) :=
  ⟨(touch_id_stable [(0, ⟨5, LIBINPUT_TOUCH_TYPE_DOWN, 0, 0⟩)]
      [(0, ⟨5, LIBINPUT_TOUCH_TYPE_MOTION, 0, 0⟩)] [] 0 0
      ⟨2, LIBINPUT_TOUCH_TYPE_DOWN, 256, 512⟩ ⟨2, LIBINPUT_TOUCH_TYPE_UP, 768, 1024⟩
      (by decide) (by decide) (by decide) (by decide) (by decide)).1,
   by decide⟩

/-- The touch-downs of a concatenation are those of its two parts. -/
theorem touch_downs_append (a b : List (Nat × libinput_event_touch)) :
    touch_downs (a ++ b) = touch_downs a + touch_downs b := by
  induction a with
  | nil => simp [touch_downs]
  | cons p a ih =>
    obtain ⟨dev, event⟩ := p
    show touch_downs ((dev, event) :: (a ++ b)) = _
    simp only [touch_downs, ih]
    omega

/-- From statics whose counter is `n`, a sequence of events that keeps the
counter within the range of an `int` is handled to the end, leaves the counter
at `n` plus the number of its touch-downs, and posts every touch-down with
`n` plus the number of touch-downs before it. -/
theorem touch_ids_from (st : TouchStatics) (n : Nat) (hn : st.next_touchid = (n : Int))
    (hl : st.touchids.length = TOUCH_MAX_SLOTS)
    (evs : List (Nat × libinput_event_touch))
    (hs : ∀ p ∈ evs, p.2.slot < TOUCH_MAX_SLOTS)
    (hc : n + touch_downs evs < 2 ^ 31) :
    ∃ st1 outs, handle_touch_sequence st evs = some (st1, outs) ∧
      outs.length = evs.length ∧
      st1.next_touchid = ((n + touch_downs evs : Nat) : Int) ∧
      ∀ pre dev d post, evs = pre ++ (dev, d) :: post →
        d.touch_type = LIBINPUT_TOUCH_TYPE_DOWN →
        outs[pre.length]? =
          some [xf86PostTouchEvent dev ((n + touch_downs pre : Nat) : Int)
            XI_TouchBegin 0 d.x d.y] := by
  induction evs generalizing st n with
  | nil =>
    refine ⟨st, [], rfl, rfl, by simp [touch_downs, hn], fun pre dev d post h _ => ?_⟩
    simp at h
  | cons p evs ih =>
    obtain ⟨dev0, e0⟩ := p
    have hslot : e0.slot < st.touchids.length := by
      rw [hl]; exact hs (dev0, e0) (List.mem_cons_self _ _)
    have hs1 : ∀ q ∈ evs, q.2.slot < TOUCH_MAX_SLOTS := fun q hq =>
      hs q (List.mem_cons_of_mem _ hq)
    by_cases hd0 : e0.touch_type = LIBINPUT_TOUCH_TYPE_DOWN
    · have h1 := handle_touch_down st dev0 e0 hd0 hslot
      have hc1 : n + 1 + touch_downs evs < 2 ^ 31 := by
        simp only [touch_downs, hd0, if_true] at hc; omega
      have hw : int_wrap (st.next_touchid + 1) = ((n + 1 : Nat) : Int) := by
        rw [hn]
        have := int_wrap_of_range ((n : Int) + 1) (by omega) (by omega)
        rw [this]; push_cast; rfl
      obtain ⟨st2, outs, h2, hlen, hnext, hk⟩ :=
        ih { next_touchid := int_wrap (st.next_touchid + 1),
             touchids := st.touchids.set e0.slot st.next_touchid } (n + 1) hw
          (by simp [hl]) hs1 hc1
      refine ⟨st2, [xf86PostTouchEvent dev0 st.next_touchid XI_TouchBegin 0 e0.x e0.y] :: outs,
        by simp [handle_touch_sequence, h1, h2], by simp [hlen], ?_,
        fun pre dev d post he hd => ?_⟩
      · rw [hnext]; simp only [touch_downs, hd0, if_true]; congr 1; omega
      · cases pre with
        | nil =>
          simp only [List.nil_append, List.cons.injEq, Prod.mk.injEq] at he
          obtain ⟨⟨rfl, rfl⟩, -⟩ := he
          simp [touch_downs, hn]
        | cons q pre =>
          simp only [List.cons_append, List.cons.injEq] at he
          obtain ⟨rfl, rfl⟩ := he
          have := hk pre dev d post rfl hd
          simp only [List.length_cons, List.getElem?_cons_succ, this, touch_downs, hd0, if_true]
          rw [Nat.add_assoc]
    · obtain ⟨out, h1⟩ := handle_touch_not_down st dev0 e0 hd0 hslot
      have hc1 : n + touch_downs evs < 2 ^ 31 := by
        simp only [touch_downs, hd0, if_false] at hc; omega
      obtain ⟨st2, outs, h2, hlen, hnext, hk⟩ := ih st n hn hl hs1 hc1
      refine ⟨st2, out :: outs, by simp [handle_touch_sequence, h1, h2], by simp [hlen], ?_,
        fun pre dev d post he hd => ?_⟩
      · rw [hnext]; simp [touch_downs, hd0]
      · cases pre with
        | nil =>
          simp only [List.nil_append, List.cons.injEq, Prod.mk.injEq] at he
          obtain ⟨⟨rfl, rfl⟩, -⟩ := he
          exact absurd hd hd0
        | cons q pre =>
          simp only [List.cons_append, List.cons.injEq] at he
          obtain ⟨rfl, rfl⟩ := he
          have := hk pre dev d post rfl hd
          simp [this, touch_downs, hd0]

/-- C5: in every sequence of touch events with slots below `TOUCH_MAX_SLOTS`
and fewer than 2^31 touch-downs, handled from the initial statics, every event
is handled and the k-th touch-down overall (k counted from 0: the number of
touch-downs before it) is posted as `XI_TouchBegin` with identifier k; of two
touch-downs the later one has the strictly greater identifier; the counter
ends at the number of touch-downs, and an event that is not a touch-down
leaves the counter and the table as they are. -/
theorem touch_ids_count_downs (evs : List (Nat × libinput_event_touch))
    (hs : ∀ p ∈ evs, p.2.slot < TOUCH_MAX_SLOTS)
    (hc : touch_downs evs < 2 ^ 31) :
    ∃ st1 outs, handle_touch_sequence TouchStatics.initial evs = some (st1, outs) ∧
      outs.length = evs.length ∧
      st1.next_touchid = (touch_downs evs : Int) ∧
      (∀ pre dev d post, evs = pre ++ (dev, d) :: post →
        d.touch_type = LIBINPUT_TOUCH_TYPE_DOWN →
        outs[pre.length]? =
          some [xf86PostTouchEvent dev (touch_downs pre : Int) XI_TouchBegin 0 d.x d.y]) ∧
      (∀ pre dev_a a mid dev_b b post,
        evs = pre ++ (dev_a, a) :: (mid ++ (dev_b, b) :: post) →
        a.touch_type = LIBINPUT_TOUCH_TYPE_DOWN →
        b.touch_type = LIBINPUT_TOUCH_TYPE_DOWN →
        ∃ id_a id_b : Int,
          outs[pre.length]? = some [xf86PostTouchEvent dev_a id_a XI_TouchBegin 0 a.x a.y] ∧
          outs[pre.length + 1 + mid.length]? =
            some [xf86PostTouchEvent dev_b id_b XI_TouchBegin 0 b.x b.y] ∧
          id_a < id_b) ∧
      (∀ (st : TouchStatics) (dev : Nat) (event : libinput_event_touch),
        event.touch_type ≠ LIBINPUT_TOUCH_TYPE_DOWN →
        event.slot < st.touchids.length →
        ∃ out, xf86libinput_handle_touch st dev event = some (st, out)) := by
  obtain ⟨st1, outs, h, hlen, hnext, hk⟩ :=
    touch_ids_from TouchStatics.initial 0 rfl (by simp [TouchStatics.initial]) evs hs
      (by omega)
  simp only [Nat.zero_add] at hnext hk
  refine ⟨st1, outs, h, hlen, hnext, hk, ?_, handle_touch_not_down⟩
  intro pre dev_a a mid dev_b b post he ha hb
  refine ⟨(touch_downs pre : Int), (touch_downs (pre ++ (dev_a, a) :: mid) : Int),
    hk pre dev_a a _ he ha, ?_, ?_⟩
  · have he2 : evs = (pre ++ (dev_a, a) :: mid) ++ (dev_b, b) :: post := by
      rw [he]; simp
    have := hk (pre ++ (dev_a, a) :: mid) dev_b b post he2 hb
    simpa [Nat.add_assoc, Nat.add_comm 1] using this
  · rw [touch_downs_append]
    simp only [touch_downs, ha, if_true]
    push_cast
    omega

/-- Witness of C5: downs on slots 3 and 0, a motion on slot 3 and a down on
slot 3 again are posted with identifiers 0, 1, 0 and 2. -/
theorem touch_ids_count_downs_witness :
    (∃ st1 outs,
      handle_touch_sequence TouchStatics.initial
          [(0, ⟨3, LIBINPUT_TOUCH_TYPE_DOWN, 0, 0⟩), (1, ⟨0, LIBINPUT_TOUCH_TYPE_DOWN, 0, 0⟩),
           (0, ⟨3, LIBINPUT_TOUCH_TYPE_MOTION, 256, 0⟩),
           (0, ⟨3, LIBINPUT_TOUCH_TYPE_DOWN, 0, 0⟩)] = some (st1, outs) ∧
      outs.length = 4 ∧ st1.next_touchid = 3) ∧
    handle_touch_sequence TouchStatics.initial
        [(0, ⟨3, LIBINPUT_TOUCH_TYPE_DOWN, 0, 0⟩), (1, ⟨0, LIBINPUT_TOUCH_TYPE_DOWN, 0, 0⟩),
         (0, ⟨3, LIBINPUT_TOUCH_TYPE_MOTION, 256, 0⟩),
         (0, ⟨3, LIBINPUT_TOUCH_TYPE_DOWN, 0, 0⟩)] =
      some (⟨3, [1, 0, 0, 2, 0, 0, 0, 0, 0, 0, 0, 0, 0, 0, 0]⟩,
        [[xf86PostTouchEvent 0 0 XI_TouchBegin 0 0 0],
         [xf86PostTouchEvent 1 1 XI_TouchBegin 0 0 0],
         [xf86PostTouchEvent 0 0 XI_TouchUpdate 0 256 0],
         [xf86PostTouchEvent 0 2 XI_TouchBegin 0 0 0]]) := by
  refine ⟨?_, by decide⟩
  obtain ⟨st1, outs, h, hlen, hnext, -⟩ :=
    touch_ids_count_downs
      [(0, ⟨3, LIBINPUT_TOUCH_TYPE_DOWN, 0, 0⟩), (1, ⟨0, LIBINPUT_TOUCH_TYPE_DOWN, 0, 0⟩),
       (0, ⟨3, LIBINPUT_TOUCH_TYPE_MOTION, 256, 0⟩),
       (0, ⟨3, LIBINPUT_TOUCH_TYPE_DOWN, 0, 0⟩)] (by decide) (by decide)
  exact ⟨st1, outs, h, hlen, hnext⟩

end XF86Libinput
